import Mathlib

/-!
Verification development for the Hi-Hungry repository core: the distance
parser, the preference extractor, the recommendation scorer (both copies:
the main page in `src/unnamed/part_000` and `src/app/recommendations/page.tsx`),
the geo-cache lookup and the per-place photo enrichment of the
`/api/restaurants` route (`src/unnamed/part_001`).

Modelling conventions:
  * JS numbers are modelled as `ℚ`.  No claim here hinges on binary
    floating-point rounding; `NaN`/`Infinity` are handled where the source
    checks for them (`Number.isNaN`, `Number.isFinite`): a value that can
    only be `NaN`/non-finite is represented through `Option`.
  * JS strings are `List Char`; an absent (`undefined`/`null`) string field
    is `Option (List Char)`.  JS truthiness of a string is "nonempty".
  * JS `Record<k, number>` frequency maps are total functions `k → ℚ` with
    default `0`, matching the source's `(m[k] || 0)` read pattern.
-/

set_option allowUnsafeReducibility true

attribute [semireducible] Rat.add Rat.mul Rat.sub Rat.div Rat.inv

namespace HiHungry

/-- ASCII lower-casing of one character, the fragment of JS
`String.prototype.toLowerCase` exercised by the repository's inputs
(cuisine names, distance strings and category tags are ASCII). -/
def asciiToLower (c : Char) : Char :=
  if 'A' ≤ c ∧ c ≤ 'Z' then Char.ofNat (c.toNat + 32) else c

/-- Model of `s.toLowerCase()` on `List Char`. -/
def toLowerStr (s : List Char) : List Char :=
  s.map asciiToLower

/-- Model of `haystack.includes(needle)` : does `needle` occur as a
contiguous substring? -/
def containsSub (needle : List Char) : List Char → Bool
  | [] => needle.isEmpty
  | c :: rest => needle.isPrefixOf (c :: rest) || containsSub needle rest

/-- Whitespace skipped by JS `parseFloat` before the number. -/
def isJsWs (c : Char) : Bool :=
  c = ' ' || c = '\t' || c = '\n' || c = '\r'

/-- Drop leading whitespace, as `parseFloat` does. -/
def skipWs : List Char → List Char
  | [] => []
  | c :: rest => if isJsWs c then skipWs rest else c :: rest

/-- Numeric value of a digit character. -/
def digToNat (c : Char) : ℕ :=
  c.toNat - '0'.toNat

/-- Value of a digit run read as an integer part. -/
def intOfDigits (ds : List Char) : ℚ :=
  ds.foldl (fun acc c => acc * 10 + digToNat c) 0

/-- Value of a digit run read as a fractional part (digits after the dot). -/
def fracOfDigits (ds : List Char) : ℚ :=
  ds.foldr (fun c acc => ((digToNat c : ℚ) + acc) / 10) 0

/-- Natural value of an exponent digit run. -/
def expOfDigits (ds : List Char) : ℕ :=
  ds.foldl (fun acc c => acc * 10 + digToNat c) 0

/-- Model of JS `parseFloat`: skip leading whitespace, optional sign, a
digit run with an optional fractional part (at least one digit overall),
and an optional `e`/`E` exponent; trailing garbage is ignored; `none`
stands for `NaN` (no numeric prefix).  The `"Infinity"` literal of
`parseFloat` is not modelled: the repository always applies `parseFloat`
to a lower-cased string, and `parseFloat` only accepts a capital-I
`"Infinity"`, so that branch is unreachable in the modelled call sites. -/
def parseFloatQ (s : List Char) : Option ℚ :=
  let t := skipWs s
  let signRest : ℚ × List Char :=
    match t with
    | '-' :: r => (-1, r)
    | '+' :: r => (1, r)
    | _ => (1, t)
  let sign := signRest.1
  let t1 := signRest.2
  let intDs := t1.takeWhile Char.isDigit
  let t2 := t1.drop intDs.length
  let fracRest : List Char × List Char :=
    match t2 with
    | '.' :: r => (r.takeWhile Char.isDigit, r.drop (r.takeWhile Char.isDigit).length)
    | _ => ([], t2)
  let fracDs := fracRest.1
  let t3 := fracRest.2
  if intDs.isEmpty ∧ fracDs.isEmpty then none
  else
    let value := sign * (intOfDigits intDs + fracOfDigits fracDs)
    match t3 with
    | [] => some value
    | c :: r =>
      if c = 'e' ∨ c = 'E' then
        let esignRest : ℤ × List Char :=
          match r with
          | '-' :: rr => (-1, rr)
          | '+' :: rr => (1, rr)
          | _ => (1, r)
        let eDs := esignRest.2.takeWhile Char.isDigit
        if eDs.isEmpty then some value
        else some (value * (10 : ℚ) ^ (esignRest.1 * (expOfDigits eDs : ℤ)))
      else some value

/-- Distance parser of `src/unnamed/part_000` (lines 131-140): miles
indicators are checked first, then kilometres, then bare metres.

```js
function parseDistanceToMeters(distance) {
  if (!distance) return null;
  const lower = distance.toLowerCase();
  const num = parseFloat(lower);
  if (Number.isNaN(num)) return null;
  if (lower.includes("mi") || lower.includes("mile")) return num * 1609.34;
  if (lower.includes("km")) return num * 1000;
  if (lower.includes("m") && !lower.includes("mile")) return num;
  return null;
}
``` -/
def parseDistanceToMeters (distance : List Char) : Option ℚ :=
  if distance.isEmpty then none
  else
    let lower := toLowerStr distance
    match parseFloatQ lower with
    | none => none
    | some num =>
      if containsSub ('m' :: 'i' :: []) lower || containsSub ('m' :: 'i' :: 'l' :: 'e' :: []) lower then
        some (num * (160934 / 100))
      else if containsSub ('k' :: 'm' :: []) lower then some (num * 1000)
      else if containsSub ('m' :: []) lower && !containsSub ('m' :: 'i' :: 'l' :: 'e' :: []) lower then
        some num
      else none

/-- Distance parser of `src/app/recommendations/page.tsx` (lines 35-59).
The source memoizes results in a `Map` keyed by the exact input string;
the memo only avoids re-parsing and never changes the value, so the pure
value function is modelled.  Note this copy has no miles branch:

```js
const lower = distance.toLowerCase();
const num = parseFloat(lower);
if (Number.isNaN(num)) { ... return null; }
let result = null;
if (lower.includes("km")) { result = num * 1000; }
else if (lower.includes("m")) { result = num; }
return result;
``` -/
def pageParseDistanceToMeters (distance : List Char) : Option ℚ :=
  if distance.isEmpty then none
  else
    let lower := toLowerStr distance
    match parseFloatQ lower with
    | none => none
    | some num =>
      if containsSub ('k' :: 'm' :: []) lower then some (num * 1000)
      else if containsSub ('m' :: []) lower then some num
      else none

example : parseDistanceToMeters ("0.5 km away".toList) = some 500 := by decide
example : parseDistanceToMeters ("2 mi away".toList) = some (321868 / 100) := by decide
example : pageParseDistanceToMeters ("2 mi away".toList) = some 2 := by decide
example : parseDistanceToMeters ("away".toList) = none := by decide
example : parseDistanceToMeters ("800 m away".toList) = some 800 := by decide

/-- The `FoodStore` fields read by `extractPreferences`, `scoreRecommendation`
and the sort comparator.  Presentational fields never read by the modelled
functions (`id`, `name`, `description`, `specialties`, `image`, `gallery`,
`lat`, `lon`, `phone`, `website`, `reviews`, `businessStatus`,
`formattedAddress`, `openingHours.weekdayText`) are omitted.  `isNew` and
`openNow` model the truthiness of the optional `isNew` and
`openingHours?.openNow` fields. -/
structure FoodStore where
  cuisine : List Char
  spiceLevel : List Char
  distance : List Char
  rating : Option ℚ
  ratingCount : Option ℚ
  priceLevel : Option ℚ
  isNew : Bool
  openNow : Bool
  deriving DecidableEq

/-- The `UserPreferences` type (part_000 lines 157-164 and page.tsx lines
62-69).  The JS `Record` frequency maps are modelled as total functions
with default `0`, matching the `(m[k] || 0)` read pattern of the source. -/
structure UserPreferences where
  favoriteCuisines : List Char → ℚ
  avgRating : ℚ
  avgDistance : ℚ
  preferredPriceLevels : ℚ → ℚ
  preferredSpiceLevels : List Char → ℚ
  totalSaved : ℚ

/-- Model of `m[k] = (m[k] || 0) + 1` on a default-0 frequency map. -/
def bump [DecidableEq κ] (m : κ → ℚ) (k : κ) : κ → ℚ :=
  fun k' => if k' = k then m k + 1 else m k'

/-- Loop accumulator of `extractPreferences` (part_000 lines 179-200). -/
structure PrefAccum where
  cuisineCounts : List Char → ℚ
  priceCounts : ℚ → ℚ
  spiceCounts : List Char → ℚ
  totalRating : ℚ
  ratingCount : ℚ
  totalDistance : ℚ
  distanceCount : ℚ

/-- One iteration of the `for (const store of saved)` loop of
`extractPreferences` (part_000 lines 187-200). -/
def prefStep (acc : PrefAccum) (store : FoodStore) : PrefAccum :=
  let acc1 := if !store.cuisine.isEmpty then
    { acc with cuisineCounts := bump acc.cuisineCounts store.cuisine } else acc
  let acc2 := match store.priceLevel with
    | some p => { acc1 with priceCounts := bump acc1.priceCounts p }
    | none => acc1
  let acc3 := if !store.spiceLevel.isEmpty then
    { acc2 with spiceCounts := bump acc2.spiceCounts store.spiceLevel } else acc2
  let acc4 := match store.rating with
    | some r => if r > 0 then
        { acc3 with totalRating := acc3.totalRating + r, ratingCount := acc3.ratingCount + 1 }
      else acc3
    | none => acc3
  match parseDistanceToMeters store.distance with
  | some m =>
    { acc4 with totalDistance := acc4.totalDistance + m, distanceCount := acc4.distanceCount + 1 }
  | none => acc4

/-- Model of `extractPreferences` (part_000 lines 167-210): a single pass
accumulating per-field counts and sums; averages divide only when the
corresponding count is positive.  `Number.isFinite` on a parsed distance
is always true in the `ℚ` model (`parseFloatQ` never yields an infinity,
see its doc comment). -/
def extractPreferences (saved : List FoodStore) : UserPreferences :=
  if saved.isEmpty then
    { favoriteCuisines := fun _ => 0
      avgRating := 0
      avgDistance := 0
      preferredPriceLevels := fun _ => 0
      preferredSpiceLevels := fun _ => 0
      totalSaved := 0 }
  else
    let acc := saved.foldl prefStep
      { cuisineCounts := fun _ => 0, priceCounts := fun _ => 0, spiceCounts := fun _ => 0
        totalRating := 0, ratingCount := 0, totalDistance := 0, distanceCount := 0 }
    { favoriteCuisines := acc.cuisineCounts
      avgRating := if acc.ratingCount > 0 then acc.totalRating / acc.ratingCount else 0
      avgDistance := if acc.distanceCount > 0 then acc.totalDistance / acc.distanceCount else 0
      preferredPriceLevels := acc.priceCounts
      preferredSpiceLevels := acc.spiceCounts
      totalSaved := (saved.length : ℚ) }

/-- Cuisine term of the scorer (part_000 lines 219-226, page.tsx lines
139-150), as a function of the profile's match count for the candidate's
cuisine and of the profile's total saved count. -/
def cuisineTerm (cuisineCount totalSaved : ℚ) : ℚ :=
  if cuisineCount > 0 then (if cuisineCount ≥ 3 then 25 else cuisineCount * 8)
  else if totalSaved > 0 then -2 else 0

/-- Rating term of the scorer (part_000 lines 229-243): the profile-relative
part together with the social-proof part, which the source guards under the
same `rating > 0` test. -/
def ratingTerm (rating ratingCount : Option ℚ) (avgRating : ℚ) : ℚ :=
  match rating with
  | none => 0
  | some r =>
    if r > 0 then
      (if avgRating > 0 then
        (if |r - avgRating| < 1/2 then 20 else if |r - avgRating| < 1 then 12 else 5)
          + (if avgRating ≥ 4 ∧ r ≥ 9/2 then 8 else 0)
      else r * 3)
        + (match ratingCount with
           | some rc => if rc > 100 then min (rc / 300) 3 else 0
           | none => 0)
    else 0

/-- Distance term of the scorer (part_000 lines 246-258): profile-relative
part plus the absolute proximity bands.  `Number.isFinite(meters)` is
always true in the `ℚ` model. -/
def distanceTerm (meters : Option ℚ) (avgDistance : ℚ) : ℚ :=
  match meters with
  | none => 0
  | some m =>
    if m > 0 then
      (if avgDistance > 0 then
        (if |m - avgDistance| < 500 then 15 else if |m - avgDistance| < 1000 then 10 else 0)
          + (if avgDistance < 1000 ∧ m < 1500 then 12 else 0)
      else 0)
        + (if m < 500 then 10 else if m < 1000 then 7 else if m < 2000 then 4
           else if m < 5000 then 1 else 0)
    else 0

/-- Price-level term of the scorer (part_000 lines 261-265): note the `-1`
novelty penalty has no `totalSaved > 0` guard, unlike the cuisine term. -/
def priceTerm (priceLevel : Option ℚ) (priceCounts : ℚ → ℚ) : ℚ :=
  match priceLevel with
  | some p => if priceCounts p > 0 then priceCounts p * 5 else -1
  | none => 0

/-- Spice-level term of the scorer (part_000 lines 268-270). -/
def spiceTerm (spiceCount : ℚ) : ℚ :=
  if spiceCount > 0 then spiceCount * 3 else 0

/-- Diversity bonus of the scorer (part_000 line 273). -/
def diversityTerm (totalSaved cuisineCount : ℚ) : ℚ :=
  if totalSaved ≥ 5 ∧ cuisineCount = 0 then 2 else 0

/-- Quality-flag terms of the scorer (part_000 lines 276-277). -/
def flagsTerm (isNew openNow : Bool) : ℚ :=
  (if isNew then 3 else 0) + (if openNow then 5 else 0)

/-- Model of `scoreRecommendation` of part_000 (lines 213-280).  The
`metersCache` parameter models the optional pre-computed meters argument:
`none` covers both an absent argument and a passed-in `null` (in JS,
`metersCache ?? parseDistanceToMeters(...)` re-parses in either case). -/
def scoreRecommendation (restaurant : FoodStore) (preferences : UserPreferences)
    (metersCache : Option ℚ) : ℚ :=
  let meters := match metersCache with
    | some m => some m
    | none => parseDistanceToMeters restaurant.distance
  let cuisineCount := preferences.favoriteCuisines restaurant.cuisine
  cuisineTerm cuisineCount preferences.totalSaved
    + ratingTerm restaurant.rating restaurant.ratingCount preferences.avgRating
    + distanceTerm meters preferences.avgDistance
    + priceTerm restaurant.priceLevel preferences.preferredPriceLevels
    + spiceTerm (preferences.preferredSpiceLevels restaurant.spiceLevel)
    + diversityTerm preferences.totalSaved cuisineCount
    + flagsTerm restaurant.isNew restaurant.openNow

/-- Model of `scoreRecommendation` of page.tsx (lines 133-244), written out
independently: its body repeats part_000's scorer term by term, but it has
no meters-cache parameter and uses its own file's distance parser (the one
with no miles branch). -/
def pageScoreRecommendation (restaurant : FoodStore) (preferences : UserPreferences) : ℚ :=
  let meters := pageParseDistanceToMeters restaurant.distance
  let cuisineCount := preferences.favoriteCuisines restaurant.cuisine
  let s1 := if cuisineCount > 0 then (if cuisineCount ≥ 3 then 25 else cuisineCount * 8)
    else if preferences.totalSaved > 0 then -2 else 0
  let s2 := match restaurant.rating with
    | none => 0
    | some r =>
      if r > 0 then
        (if preferences.avgRating > 0 then
          (if |r - preferences.avgRating| < 1/2 then 20
           else if |r - preferences.avgRating| < 1 then 12 else 5)
            + (if preferences.avgRating ≥ 4 ∧ r ≥ 9/2 then 8 else 0)
        else r * 3)
          + (match restaurant.ratingCount with
             | some rc => if rc > 100 then min (rc / 300) 3 else 0
             | none => 0)
      else 0
  let s3 := match meters with
    | none => 0
    | some m =>
      if m > 0 then
        (if preferences.avgDistance > 0 then
          (if |m - preferences.avgDistance| < 500 then 15
           else if |m - preferences.avgDistance| < 1000 then 10 else 0)
            + (if preferences.avgDistance < 1000 ∧ m < 1500 then 12 else 0)
        else 0)
          + (if m < 500 then 10 else if m < 1000 then 7 else if m < 2000 then 4
             else if m < 5000 then 1 else 0)
      else 0
  let s4 := match restaurant.priceLevel with
    | some p => if preferences.preferredPriceLevels p > 0
        then preferences.preferredPriceLevels p * 5 else -1
    | none => 0
  let s5 := if preferences.preferredSpiceLevels restaurant.spiceLevel > 0
    then preferences.preferredSpiceLevels restaurant.spiceLevel * 3 else 0
  let s6 := if preferences.totalSaved ≥ 5 ∧ cuisineCount = 0 then 2 else 0
  let s7 := (if restaurant.isNew then 3 else 0) + (if restaurant.openNow then 5 else 0)
  s1 + s2 + s3 + s4 + s5 + s6 + s7

/-- A scored candidate: the `{ restaurant, score }` pairs built by
`fetchRecommendations` before sorting (part_000 lines 583-586). -/
structure Scored where
  restaurant : FoodStore
  score : ℚ
  deriving DecidableEq

/-- Rating used by the sort tie-breaks: `a.restaurant.rating ?? 0`. -/
def ratingD (s : Scored) : ℚ :=
  s.restaurant.rating.getD 0

/-- Comparison of two parsed distances as the comparator's final step
computes `distA - distB` with `?? Infinity` for an unparseable distance:
a negative difference orders the first candidate earlier, `Infinity -
Infinity` is `NaN`, which `sort` coerces to "equal". -/
def distCompare (a b : Option ℚ) : Ordering :=
  match a, b with
  | some x, some y => if x < y then Ordering.lt else if y < x then Ordering.gt else Ordering.eq
  | some _, none => Ordering.lt
  | none, some _ => Ordering.gt
  | none, none => Ordering.eq

/-- The sort comparator of `fetchRecommendations` (part_000 lines 588-597,
identical in page.tsx lines 345-357), as an `Ordering` (`lt` = first
argument sorts earlier, i.e. the JS comparator returned a negative
number). When `|scoreDiff| > 0.1` the comparator returns `scoreDiff`,
which is then nonzero. -/
def cmpScored (a b : Scored) : Ordering :=
  let scoreDiff := b.score - a.score
  if |scoreDiff| > 1/10 then (if scoreDiff < 0 then Ordering.lt else Ordering.gt)
  else
    if ratingD b ≠ ratingD a then
      (if ratingD b - ratingD a < 0 then Ordering.lt else Ordering.gt)
    else
      distCompare (parseDistanceToMeters a.restaurant.distance)
        (parseDistanceToMeters b.restaurant.distance)

/-- The relation "`a` need not come after `b`" induced by the comparator;
`sortScored` sorts by it. -/
def cmpLe (a b : Scored) : Prop :=
  cmpScored a b ≠ Ordering.gt

instance : DecidableRel cmpLe := fun a b => by
  unfold cmpLe
  infer_instance

/-- Model of `scored.sort(comparator)`: a comparison sort driven by
`cmpScored`. -/
def sortScored (l : List Scored) : List Scored :=
  List.insertionSort cmpLe l

/-- Model of `scored.slice(0, 20)` after the sort (part_000 line 599,
page.tsx lines 360-361): the recommendation list is the first 20 entries
of the sorted list. -/
def topRecommendations (l : List Scored) : List Scored :=
  (sortScored l).take 20

/-- Tie-break order as the claim states it: descending rating, then
ascending parsed distance with an unparseable distance last. -/
def tieCompare (a b : Scored) : Ordering :=
  if ratingD b < ratingD a then Ordering.lt
  else if ratingD a < ratingD b then Ordering.gt
  else distCompare (parseDistanceToMeters a.restaurant.distance)
    (parseDistanceToMeters b.restaurant.distance)

/-- Boolean "may `a` be placed before `b`" reading of the claimed order:
score-descending for pairs more than 0.1 apart, and for pairs within 0.1
descending rating, then ascending parsed distance with unparseable
last. -/
def claimedBeforeB (a b : Scored) : Bool :=
  if |a.score - b.score| ≤ 1/10 then
    decide (ratingD b < ratingD a)
      || (decide (ratingD a = ratingD b)
        && match parseDistanceToMeters a.restaurant.distance,
             parseDistanceToMeters b.restaurant.distance with
           | some x, some y => decide (x ≤ y)
           | some _, none => true
           | none, some _ => false
           | none, none => true)
  else decide (b.score < a.score)

/-- Pairwise check of a Boolean relation over every ordered pair of a
list. -/
def pairwiseB (r : α → α → Bool) : List α → Bool
  | [] => true
  | a :: rest => rest.all (r a) && pairwiseB r rest

/-- The claimed sort invariant, as a property of an output list: every
ordered pair satisfies `claimedBeforeB`. -/
abbrev claimedOrderHolds (l : List Scored) : Prop :=
  pairwiseB claimedBeforeB l = true

/-- The columns of a `places` row read by the geo-cache lookup and its
freshness filters (part_001 lines 682-692); timestamps are milliseconds
since the epoch as in `Date.now()`. -/
structure PlaceRow where
  lat : ℚ
  lon : ℚ
  coverImageBase64 : Option (List Char)
  lastUpdatedAt : ℚ
  expiresAt : Option ℚ
  deriving DecidableEq

/-- Thirty days in milliseconds, the TTL constant `30 * 24 * 60 * 60 *
1000` of part_001. -/
def thirtyDaysMs : ℚ :=
  30 * 24 * 60 * 60 * 1000

/-- The geo-cache lookup query of the `GET` route (part_001 lines
682-692): rows inside the bounding box, with a non-null cover image, and
with `last_updated_at` strictly within the last 30 days, capped at 60
rows.  Note the query has no condition on `expires_at`.  The deltas are
passed in: the route computes them from the radius with `Math.cos`
(lines 677-679), which no claim here depends on. -/
def geoCacheQuery (rows : List PlaceRow) (lat lon latDelta lonDelta nowMs : ℚ) : List PlaceRow :=
  (rows.filter (fun p =>
    decide (lat - latDelta ≤ p.lat) && decide (p.lat ≤ lat + latDelta)
      && decide (lon - lonDelta ≤ p.lon) && decide (p.lon ≤ lon + lonDelta)
      && p.coverImageBase64.isSome
      && decide (nowMs - thirtyDaysMs < p.lastUpdatedAt))).take 60

/-- The cache-sufficiency decision of the `GET` route (part_001 line 698):
the cached rows are used instead of the upstream search iff at least 5
matched. -/
def geoCacheSufficient (rows : List PlaceRow) (lat lon latDelta lonDelta nowMs : ℚ) :
    Option (List PlaceRow) :=
  let cached := geoCacheQuery rows lat lon latDelta lonDelta nowMs
  if 5 ≤ cached.length then some cached else none

/-- Timestamp columns written by every `places` upsert of part_001 (lines
467-468, 589-590, 404-405): `last_updated_at = now` and `expires_at = now
+ 30 days`. -/
def placeUpsertStamp (nowMs : ℚ) : ℚ × Option ℚ :=
  (nowMs, some (nowMs + thirtyDaysMs))

/-- JS string truthiness of an optional string: present and nonempty. -/
def strTruthy : Option (List Char) → Bool
  | some s => !s.isEmpty
  | none => false

/-- Model of `a || b` on strings: `b` when `a` is falsy (empty). -/
def jsOrStr (a b : List Char) : List Char :=
  if a.isEmpty then b else a

/-- Model of `a || b` where `a` is an optional string. -/
def optOrStr (a b : Option (List Char)) : Option (List Char) :=
  if strTruthy a then a else b

/-- A photo reference as carried in `GooglePlace["photos"]` and produced
by the Place Details mapping (part_001 lines 48-53, 353-358). -/
structure PhotoRef where
  photoReference : List Char
  width : Option ℚ
  height : Option ℚ
  attributions : Option (List (List Char))
  deriving DecidableEq

/-- A `GalleryEntry` (part_001 lines 56-62). -/
structure GalleryEntry where
  id : List Char
  imageBase64 : List Char
  attribution : Option (List Char)
  width : Option ℚ
  height : Option ℚ
  deriving DecidableEq

/-- Opening-hours snapshot carried through enrichment. -/
structure OpeningHoursInfo where
  weekdayText : Option (List (List Char))
  openNow : Option Bool
  deriving DecidableEq

/-- A review record carried through enrichment. -/
structure ReviewInfo where
  authorName : List Char
  rating : ℚ
  text : List Char
  time : ℚ
  deriving DecidableEq

/-- The `PlaceDetails` result type of `getOrCachePlacePhotos` (part_001
lines 143-161). -/
structure PlaceDetails where
  cover : List Char
  gallery : List (List Char)
  description : Option (List Char)
  phone : Option (List Char)
  website : Option (List Char)
  internationalPhone : Option (List Char)
  openingHours : Option OpeningHoursInfo
  reviews : Option (List ReviewInfo)
  businessStatus : Option (List Char)
  deriving DecidableEq

/-- The columns of an existing `places` row read by `getOrCachePlacePhotos`
(part_001 lines 200-205). `rawDescription` models
`raw_payload.description` when present. -/
structure ExistingRow where
  rowId : ℚ
  coverImageBase64 : Option (List Char)
  photoGallery : Option (List GalleryEntry)
  phone : Option (List Char)
  websiteUrl : Option (List Char)
  internationalPhoneNumber : Option (List Char)
  openingHours : Option OpeningHoursInfo
  reviews : Option (List ReviewInfo)
  businessStatus : Option (List Char)
  rawDescription : Option (List Char)
  lastUpdatedAt : Option ℚ
  expiresAt : Option ℚ
  deriving DecidableEq

/-- The fields of a successful Place Details response used by the
enrichment (part_001 lines 313-367); `none` at the `Env` level stands for
a failed or non-2xx details request. -/
structure DetailsResult where
  editorialOverview : Option (List Char)
  reviews : Option (List ReviewInfo)
  formattedPhoneNumber : Option (List Char)
  internationalPhoneNumber : Option (List Char)
  website : Option (List Char)
  openingHours : Option OpeningHoursInfo
  businessStatus : Option (List Char)
  photos : Option (List PhotoRef)
  deriving DecidableEq

/-- One observable upstream effect of the enrichment: the Place Details
request, an individual photo fetch attempt (photo index, attempt number),
or a deliberate delay in milliseconds. -/
inductive UpstreamCall where
  | detailsFetch : UpstreamCall
  | photoFetch (index attempt : ℕ) : UpstreamCall
  | delayMs (ms : ℕ) : UpstreamCall
  deriving DecidableEq

/-- Environment of one `getOrCachePlacePhotos` run: the
`GOOGLE_PLACES_API_KEY` value, the cached row found by the initial
select, the clock, and oracles for the two kinds of upstream responses
(`photoResponse i k` is the outcome of attempt `k` for photo index `i`;
`none` is any failure, including the 10-second timeout). -/
structure Env where
  apiKey : Option (List Char)
  existing : Option ExistingRow
  nowMs : ℚ
  detailsResponse : Option DetailsResult
  photoResponse : ℕ → ℕ → Option (List Char)

/-- The parameters of `getOrCachePlacePhotos` (part_001 lines 163-175);
fields that only flow into persisted rows are kept for completeness. -/
structure PlaceParams where
  placeId : List Char
  name : List Char
  lat : ℚ
  lon : ℚ
  formattedAddress : Option (List Char)
  primaryType : Option (List Char)
  types : Option (List (List Char))
  rating : Option ℚ
  ratingCount : Option ℚ
  priceLevel : Option ℚ
  photos : Option (List PhotoRef)

/-- The category-keyword fallback image lookup (part_001 lines 83-104):
joins the category tags with commas, lower-cases, and picks the first
matching cuisine keyword's stock image. -/
def getCuisineFallbackImageFromTypes (types : Option (List (List Char))) : List Char :=
  let joined := toLowerStr (List.intercalate (',' :: []) (types.getD []))
  if containsSub ("mexican".toList) joined then
    "https://images.unsplash.com/photo-1617196034796-73dfa7b1fd56?auto=format&fit=crop&w=900&q=80".toList
  else if containsSub ("sushi".toList) joined || containsSub ("japanese".toList) joined then
    "https://images.unsplash.com/photo-1546069901-ba9599a7e63c?auto=format&fit=crop&w=900&q=80".toList
  else if containsSub ("chinese".toList) joined then
    "https://images.unsplash.com/photo-1513104890138-7c749659a591?auto=format&fit=crop&w=900&q=80".toList
  else if containsSub ("indian".toList) joined then
    "https://images.unsplash.com/photo-1565557623262-b51c2513a641?auto=format&fit=crop&w=900&q=80".toList
  else if containsSub ("pizza".toList) joined || containsSub ("italian".toList) joined then
    "https://images.unsplash.com/photo-1513104890138-7c749659a591?auto=format&fit=crop&w=900&q=80".toList
  else if containsSub ("burger".toList) joined then
    "https://images.unsplash.com/photo-1550547660-d9450f859349?auto=format&fit=crop&w=900&q=80".toList
  else
    "https://images.unsplash.com/photo-1521017432531-fbd92d768814?auto=format&fit=crop&w=900&q=80".toList

/-- The cache-validity test (part_001 lines 216-223): when `expires_at` is
set the row is valid iff `now < expires_at`, otherwise iff its
`last_updated_at` age is under 30 days; with no row the age is `Infinity`
and the test is false. -/
def isCacheValidOf (nowMs : ℚ) (ex : Option ExistingRow) : Bool :=
  match ex.bind (·.expiresAt) with
  | some e => decide (nowMs < e)
  | none =>
    match ex.bind (·.lastUpdatedAt) with
    | some lu => decide ((nowMs - lu) / 86400000 < 30)
    | none => false

/-- The gallery-entry constructor of the photo loop (part_001 lines
510-516). -/
def mkGalleryEntry (ph : PhotoRef) (dataUrl : List Char) : GalleryEntry :=
  { id := ph.photoReference
    imageBase64 := dataUrl
    attribution := ph.attributions.map (List.intercalate (' ' :: []))
    width := ph.width
    height := ph.height }

/-- One photo's fetch-with-retry (part_001 lines 500-527): at most two
attempts; a 100 ms delay happens only between a failed first attempt and
the second; after a second failure the photo is dropped. -/
def fetchOnePhoto (oracle : ℕ → ℕ → Option (List Char)) (i : ℕ) (ph : PhotoRef) :
    Option GalleryEntry × List UpstreamCall :=
  if ph.photoReference.isEmpty then (none, [])
  else
    match oracle i 0 with
    | some dataUrl => (some (mkGalleryEntry ph dataUrl), [UpstreamCall.photoFetch i 0])
    | none =>
      match oracle i 1 with
      | some dataUrl =>
        (some (mkGalleryEntry ph dataUrl),
          [UpstreamCall.photoFetch i 0, UpstreamCall.delayMs 100, UpstreamCall.photoFetch i 1])
      | none =>
        (none,
          [UpstreamCall.photoFetch i 0, UpstreamCall.delayMs 100, UpstreamCall.photoFetch i 1])

/-- The photo loop body over the remaining refs, threading the index. -/
def fetchPhotosAux (oracle : ℕ → ℕ → Option (List Char)) :
    ℕ → List PhotoRef → List GalleryEntry × List UpstreamCall
  | _, [] => ([], [])
  | i, ph :: rest =>
    let first := fetchOnePhoto oracle i ph
    let later := fetchPhotosAux oracle (i + 1) rest
    (first.1.toList ++ later.1, first.2 ++ later.2)

/-- The photo-fetch loop of `getOrCachePlacePhotos` (part_001 lines
493-531): `maxPhotos = min(4, photoRefs.length)` photos are attempted in
order (the loop guard `i < maxPhotos && (galleryEntries.length < minPhotos
|| i < maxPhotos)` reduces to `i < maxPhotos`), successes are collected in
order, failed photos are skipped. -/
def fetchPhotos (oracle : ℕ → ℕ → Option (List Char)) (refs : List PhotoRef) :
    List GalleryEntry × List UpstreamCall :=
  fetchPhotosAux oracle 0 (refs.take 4)

/-- An empty `placeDetails` accumulator (part_001 lines 283-291). -/
def emptyDetails : PlaceDetails :=
  { cover := [], gallery := [], description := none, phone := none, website := none
    internationalPhone := none, openingHours := none, reviews := none, businessStatus := none }

/-- Description fallback from the first review (part_001 lines 319-321):
the first review's text truncated to 200 characters, with an ellipsis
when truncation happened. -/
def descriptionFromReviews (rs : Option (List ReviewInfo)) : Option (List Char) :=
  match rs with
  | some (rv :: _) =>
    if !rv.text.isEmpty then
      some (rv.text.take 200 ++ (if rv.text.length > 200 then "...".toList else []))
    else none
  | _ => none

/-- The Place Details extraction (part_001 lines 311-367): builds the
`placeDetails` record and possibly replaces the working photo-reference
list (when the original list was empty, or when details carry strictly
more photos). -/
def applyDetails (r : DetailsResult) (origPhotos : Option (List PhotoRef)) :
    PlaceDetails × Option (List PhotoRef) :=
  let description :=
    match r.editorialOverview with
    | some o => if !o.isEmpty then some o else descriptionFromReviews r.reviews
    | none => descriptionFromReviews r.reviews
  let pd : PlaceDetails :=
    { cover := [], gallery := []
      description := description
      phone := r.formattedPhoneNumber
      website := r.website
      internationalPhone := r.internationalPhoneNumber
      openingHours := r.openingHours
      reviews := match r.reviews with
        | some l => if l.length > 0 then some (l.take 5) else none
        | none => none
      businessStatus := r.businessStatus }
  let photos2 : Option (List PhotoRef) :=
    match r.photos with
    | some ph =>
      if !ph.isEmpty && (match origPhotos with | none => true | some o => o.isEmpty) then some ph
      else if ph.length > (match origPhotos with | none => 0 | some o => o.length) then some ph
      else origPhotos
    | none => origPhotos
  (pd, photos2)

/-- The cache-hit result (part_001 lines 226-273), built entirely from the
cached row. -/
def cacheHitResult (ex : ExistingRow) (fallback : List Char) : PlaceDetails :=
  let allUrls : List (List Char) :=
    match ex.photoGallery with
    | some g =>
      if g.length > 0 then
        ((g.map (fun e => e.imageBase64)).filter (fun u => !u.isEmpty)).take 4
      else []
    | none => []
  let coverFromCache := jsOrStr (ex.coverImageBase64.getD []) (jsOrStr (allUrls.headD []) fallback)
  let galleryWithoutCover := if allUrls.length > 1 then (allUrls.drop 1).take 3 else []
  { cover := coverFromCache
    gallery := galleryWithoutCover
    description := ex.rawDescription
    phone := ex.phone
    website := ex.websiteUrl
    internationalPhone := ex.internationalPhoneNumber
    openingHours := ex.openingHours
    reviews := ex.reviews
    businessStatus := ex.businessStatus }

/-- The cached-photos result (part_001 lines 385-440), merging freshly
fetched details over the cached row.  (Its guard also requires a valid
cached cover, which the earlier cache-hit return already consumed, so the
branch is unreachable; it is modelled nonetheless.) -/
def cachedPhotosResult (ex : ExistingRow) (pd : PlaceDetails) (fallback : List Char) :
    PlaceDetails :=
  let allUrls : List (List Char) :=
    match ex.photoGallery with
    | some g => ((g.map (fun e => e.imageBase64)).filter (fun u => !u.isEmpty)).take 4
    | none => []
  let coverDataUrl := jsOrStr (ex.coverImageBase64.getD []) (jsOrStr (allUrls.headD []) fallback)
  let galleryWithoutCover := if allUrls.length > 1 then (allUrls.drop 1).take 3 else []
  { cover := coverDataUrl
    gallery := galleryWithoutCover
    description := optOrStr pd.description ex.rawDescription
    phone := optOrStr pd.phone ex.phone
    website := optOrStr pd.website ex.websiteUrl
    internationalPhone := optOrStr pd.internationalPhone ex.internationalPhoneNumber
    openingHours := if pd.openingHours.isSome then pd.openingHours else ex.openingHours
    reviews := if pd.reviews.isSome then pd.reviews else ex.reviews
    businessStatus := optOrStr pd.businessStatus ex.businessStatus }

/-- The no-photo result shape shared by part_001 lines 472-490 (after the
no-photo upsert) and lines 535-555 (all photo fetches failed): the
category fallback as cover and an empty gallery, with whatever details
were fetched. -/
def fallbackResult (fallback : List Char) (pd : PlaceDetails) : PlaceDetails :=
  { cover := fallback
    gallery := []
    description := pd.description
    phone := pd.phone
    website := pd.website
    internationalPhone := pd.internationalPhone
    openingHours := pd.openingHours
    reviews := pd.reviews
    businessStatus := pd.businessStatus }

/-- Model of `getOrCachePlacePhotos` (part_001 lines 163-641), returning
the `PlaceDetails` result together with the list of upstream effects
(details request, photo fetch attempts, deliberate delays) in order.
Persistence reads are part of `Env`; persistence writes are logged-and-
non-fatal in the source and do not influence the returned value. -/
def getOrCachePlacePhotos (env : Env) (p : PlaceParams) : PlaceDetails × List UpstreamCall :=
  let fallback := getCuisineFallbackImageFromTypes p.types
  match env.apiKey with
  | none =>
    ({ cover := fallback, gallery := [], description := none, phone := none, website := none
       internationalPhone := none, openingHours := none, reviews := none, businessStatus := none },
     [])
  | some _ =>
    let cacheValid := isCacheValidOf env.nowMs env.existing
    if strTruthy (env.existing.bind (·.coverImageBase64)) && cacheValid then
      (cacheHitResult ((env.existing).getD
        { rowId := 0, coverImageBase64 := none, photoGallery := none, phone := none
          websiteUrl := none, internationalPhoneNumber := none, openingHours := none
          reviews := none, businessStatus := none, rawDescription := none
          lastUpdatedAt := none, expiresAt := none }) fallback, [])
    else
      let hasCompleteCache :=
        match env.existing with
        | some ex =>
          strTruthy ex.phone && strTruthy ex.websiteUrl && ex.openingHours.isSome
            && ex.reviews.isSome && isCacheValidOf env.nowMs (some ex)
        | none => false
      let detailsStep : PlaceDetails × Option (List PhotoRef) × List UpstreamCall :=
        if hasCompleteCache then (emptyDetails, p.photos, [])
        else
          match env.detailsResponse with
          | none => (emptyDetails, p.photos, [UpstreamCall.detailsFetch])
          | some r =>
            let ap := applyDetails r p.photos
            (ap.1, ap.2, [UpstreamCall.detailsFetch])
      let pd := detailsStep.1
      let photos2 := detailsStep.2.1
      let calls1 := detailsStep.2.2
      let hasCachedPhotos :=
        match env.existing with
        | some ex =>
          strTruthy ex.coverImageBase64
            && (match ex.photoGallery with | some g => decide (g.length > 0) | none => false)
            && isCacheValidOf env.nowMs (some ex)
        | none => false
      let photoRefs := (photos2.getD []).filter (fun ph => !ph.photoReference.isEmpty)
      if hasCachedPhotos && decide (photoRefs.length > 0) then
        (cachedPhotosResult ((env.existing).getD
          { rowId := 0, coverImageBase64 := none, photoGallery := none, phone := none
            websiteUrl := none, internationalPhoneNumber := none, openingHours := none
            reviews := none, businessStatus := none, rawDescription := none
            lastUpdatedAt := none, expiresAt := none }) pd fallback, calls1)
      else if photoRefs.isEmpty then
        (fallbackResult fallback pd, calls1)
      else
        let fetched := fetchPhotos env.photoResponse photoRefs
        let galleryEntries := fetched.1
        let calls2 := fetched.2
        match galleryEntries with
        | [] => (fallbackResult fallback pd, calls1 ++ calls2)
        | e :: rest =>
          ({ cover := e.imageBase64
             gallery := ((rest.take 3).map (·.imageBase64)).filter (fun u => !u.isEmpty)
             description := pd.description
             phone := pd.phone
             website := pd.website
             internationalPhone := pd.internationalPhone
             openingHours := pd.openingHours
             reviews := pd.reviews
             businessStatus := pd.businessStatus }, calls1 ++ calls2)

/-! ### Scenario inputs -/

/-- The single saved restaurant of end-to-end scenario A. -/
def savedItemA : FoodStore :=
  { cuisine := "Italian".toList
    spiceLevel := []
    distance := "0.5 km away".toList
    rating := some (9/2)
    ratingCount := none
    priceLevel := some 2
    isNew := false
    openNow := false }

/-- The candidate of end-to-end scenario A. -/
def candidateA : FoodStore :=
  { cuisine := "Italian".toList
    spiceLevel := []
    distance := "0.6 km away".toList
    rating := some (23/5)
    ratingCount := some 150
    priceLevel := some 2
    isNew := false
    openNow := false }

/-! ### C1 -/

/-- C1: for the saved list `[{cuisine:"Italian", rating:4.5, distance:"0.5
km away", priceLevel:2}]`, `extractPreferences` yields `avgRating = 4.5`
and `avgDistance = 500`, and `scoreRecommendation` applied with that
profile to `{cuisine:"Italian", rating:4.6, distance:"0.6 km away",
priceLevel:2, ratingCount:150}` returns exactly `75.5`
(`8 + 20 + 8 + 0.5 + 15 + 12 + 7 + 5`). -/
theorem claim_c1_scenario_a :
    (extractPreferences [savedItemA]).avgRating = 9/2
      ∧ (extractPreferences [savedItemA]).avgDistance = 500
      ∧ scoreRecommendation candidateA (extractPreferences [savedItemA]) none = 151/2 := by
  decide

/-! ### C4 -/

/-- A candidate whose only signal is a numeric price level. -/
def candidatePriceOnly : FoodStore :=
  { cuisine := []
    spiceLevel := []
    distance := []
    rating := none
    ratingCount := none
    priceLevel := some 2
    isNew := false
    openNow := false }

/-- Rating contribution under an empty profile: the `rating × 3` fallback
together with the social-proof term, both guarded by `rating > 0` as in
the source. -/
def emptyProfileRatingTerm (c : FoodStore) : ℚ :=
  match c.rating with
  | some r =>
    if r > 0 then
      r * 3 + (match c.ratingCount with
               | some rc => if rc > 100 then min (rc / 300) 3 else 0
               | none => 0)
    else 0
  | none => 0

/-- Distance contribution under an empty profile: only the absolute
proximity bands. -/
def absProximityTerm (c : FoodStore) : ℚ :=
  match parseDistanceToMeters c.distance with
  | some m =>
    if m > 0 then
      (if m < 500 then 10 else if m < 1000 then 7 else if m < 2000 then 4
       else if m < 5000 then 1 else 0)
    else 0
  | none => 0

/-- Price contribution under an empty profile: the `-1` penalty applies to
every candidate with a numeric price level, because the source's price
branch has no `totalSaved > 0` guard. -/
def emptyProfilePriceTerm (c : FoodStore) : ℚ :=
  if c.priceLevel.isSome then -1 else 0

/-- C4 counterexample: under the empty profile, a candidate whose only
field is `priceLevel = 2` scores `-1`, not `0` — the claim says the
price-level term contributes exactly 0 when the saved list is empty (and
all its other terms are 0 here), but the code's `-1` unseen-price penalty
is not suppressed by `totalSaved === 0`. -/
theorem claim_c4_counterexample :
    scoreRecommendation candidatePriceOnly (extractPreferences []) none = -1
      ∧ (-1 : ℚ) ≠ 0 := by
  decide

/-- C4 amended: under the empty profile the cuisine, spice and diversity
terms contribute 0, the rating term is the `rating × 3` fallback (plus
social proof), the distance term is only the absolute proximity bands,
and the price term is `-1` for a candidate with a numeric price level
(0 otherwise) — the `-1` novelty penalty is not suppressed by
`totalSaved === 0`.  The quality flags contribute as always. -/
theorem claim_c4_amended :
    ∀ c : FoodStore,
      scoreRecommendation c (extractPreferences []) none =
        emptyProfileRatingTerm c + absProximityTerm c + emptyProfilePriceTerm c
          + flagsTerm c.isNew c.openNow := by
  intro c
  have h : extractPreferences [] =
      { favoriteCuisines := fun _ => 0, avgRating := 0, avgDistance := 0
        preferredPriceLevels := fun _ => 0, preferredSpiceLevels := fun _ => 0
        totalSaved := 0 } := rfl
  rw [h]
  rcases hr : c.rating with _ | r <;>
    rcases hm : parseDistanceToMeters c.distance with _ | m <;>
    rcases hp : c.priceLevel with _ | pl <;>
    simp [scoreRecommendation, cuisineTerm, ratingTerm, distanceTerm, priceTerm, spiceTerm,
      diversityTerm, emptyProfileRatingTerm, absProximityTerm, emptyProfilePriceTerm,
      hr, hm, hp]

/-! ### C5 -/

/-- C5: the cuisine term, which is the first addend of
`scoreRecommendation`, is monotone non-decreasing in the profile's match
count for the candidate's cuisine, saturates at exactly `+25` for every
count `≥ 3`, and is `+8 × count` at counts 1 and 2. -/
theorem claim_c5_cuisine_monotone :
    (∀ (r : FoodStore) (p : UserPreferences) (mc : Option ℚ),
        scoreRecommendation r p mc =
          cuisineTerm (p.favoriteCuisines r.cuisine) p.totalSaved
            + ratingTerm r.rating r.ratingCount p.avgRating
            + distanceTerm
                (match mc with
                 | some m => some m
                 | none => parseDistanceToMeters r.distance) p.avgDistance
            + priceTerm r.priceLevel p.preferredPriceLevels
            + spiceTerm (p.preferredSpiceLevels r.spiceLevel)
            + diversityTerm p.totalSaved (p.favoriteCuisines r.cuisine)
            + flagsTerm r.isNew r.openNow)
      ∧ (∀ c₁ c₂ t : ℚ, c₁ ≤ c₂ → cuisineTerm c₁ t ≤ cuisineTerm c₂ t)
      ∧ (∀ c t : ℚ, 3 ≤ c → cuisineTerm c t = 25)
      ∧ (∀ t : ℚ, cuisineTerm 1 t = 8)
      ∧ (∀ t : ℚ, cuisineTerm 2 t = 16) := by
  refine ⟨fun r p mc => rfl, ?_, ?_, ?_, ?_⟩
  · intro c₁ c₂ t h
    unfold cuisineTerm
    split_ifs <;> linarith
  · intro c t h
    have hc : c > 0 := by linarith
    simp [cuisineTerm, hc, h]
  · intro t
    norm_num [cuisineTerm]
  · intro t
    norm_num [cuisineTerm]

/-- Witness for C5 at concrete counts: monotone between counts 1 and 2,
and saturated at count 3. -/
theorem claim_c5_cuisine_monotone_witness :
    cuisineTerm 1 0 ≤ cuisineTerm 2 0 ∧ cuisineTerm 3 0 = 25 :=
  ⟨claim_c5_cuisine_monotone.2.1 1 2 0 (by norm_num),
   claim_c5_cuisine_monotone.2.2.1 3 0 (by norm_num)⟩

/-! ### C6 -/

/-- The rating values the source actually accumulates: defined and
strictly positive (`typeof rating === "number" && rating > 0`). -/
def positiveRatings (l : List FoodStore) : List ℚ :=
  l.filterMap (fun s => s.rating.bind (fun r => if r > 0 then some r else none))

/-- The distance values the source actually accumulates: parseable (and
finite, automatic in `ℚ`). -/
def parsedDistances (l : List FoodStore) : List ℚ :=
  l.filterMap (fun s => parseDistanceToMeters s.distance)

/-- Average over all defined (and finite) ratings, as the claim words it:
"exactly those entries form the average's denominator". -/
def avgOverDefinedRatings (l : List FoodStore) : ℚ :=
  ((l.filterMap (fun s => s.rating)).sum) / ((l.filterMap (fun s => s.rating)).length : ℚ)

/-- A saved entry with a defined, finite rating of `0`. -/
def savedRatingZero : FoodStore :=
  { cuisine := "x".toList, spiceLevel := [], distance := [], rating := some 0
    ratingCount := none, priceLevel := none, isNew := false, openNow := false }

/-- A saved entry with rating `4`. -/
def savedRatingFour : FoodStore :=
  { cuisine := "x".toList, spiceLevel := [], distance := [], rating := some 4
    ratingCount := none, priceLevel := none, isNew := false, openNow := false }

/-- C6 counterexample: for `[rating 0, rating 4]` the code averages only
over the strictly positive rating (`avgRating = 4`), while the claim's
"exactly the defined-and-finite entries form the denominator" would give
`(0 + 4) / 2 = 2`: an entry with the defined, finite rating `0` is
excluded by the source's `rating > 0` test. -/
theorem claim_c6_counterexample :
    (extractPreferences [savedRatingZero, savedRatingFour]).avgRating = 4
      ∧ avgOverDefinedRatings [savedRatingZero, savedRatingFour] = 2
      ∧ (extractPreferences [savedRatingZero, savedRatingFour]).avgRating
          ≠ avgOverDefinedRatings [savedRatingZero, savedRatingFour] := by
  decide

/-- Effect of one loop iteration on the four numeric accumulators. -/
theorem prefStep_numeric (acc : PrefAccum) (s : FoodStore) :
    (prefStep acc s).totalRating = acc.totalRating
        + (match s.rating with | some r => if r > 0 then r else 0 | none => 0)
      ∧ (prefStep acc s).ratingCount = acc.ratingCount
        + (match s.rating with | some r => if r > 0 then 1 else 0 | none => 0)
      ∧ (prefStep acc s).totalDistance = acc.totalDistance
        + (match parseDistanceToMeters s.distance with | some m => m | none => 0)
      ∧ (prefStep acc s).distanceCount = acc.distanceCount
        + (match parseDistanceToMeters s.distance with | some _ => 1 | none => 0) := by
  unfold prefStep
  rcases s.rating with _ | r <;> rcases parseDistanceToMeters s.distance with _ | m <;>
    rcases s.priceLevel with _ | p <;> split_ifs <;> simp_all <;> split_ifs <;> simp_all

/-- The fold accumulates exactly the filtered sums and counts. -/
theorem foldl_prefStep_numeric (l : List FoodStore) (acc : PrefAccum) :
    (l.foldl prefStep acc).totalRating = acc.totalRating + (positiveRatings l).sum
      ∧ (l.foldl prefStep acc).ratingCount = acc.ratingCount + (positiveRatings l).length
      ∧ (l.foldl prefStep acc).totalDistance = acc.totalDistance + (parsedDistances l).sum
      ∧ (l.foldl prefStep acc).distanceCount
        = acc.distanceCount + (parsedDistances l).length := by
  induction l generalizing acc with
  | nil => simp [positiveRatings, parsedDistances]
  | cons s t ih =>
    have hstep := prefStep_numeric acc s
    have hrec := ih (prefStep acc s)
    refine ⟨?_, ?_, ?_, ?_⟩ <;>
      simp only [List.foldl_cons, positiveRatings, parsedDistances, List.filterMap_cons] at * <;>
      rcases hr : s.rating with _ | r <;>
      rcases hm : parseDistanceToMeters s.distance with _ | m <;>
      simp_all [Option.bind] <;>
      (try split_ifs) <;> (try simp_all) <;> (try ring)

/-- C6 amended: `extractPreferences []` is the all-zero/empty profile, and
for every saved list the rating average is taken exactly over the entries
with a defined, finite and *strictly positive* rating (the source's
`rating > 0` test also drops a defined rating of `0`), while the distance
average is taken exactly over the entries with a parseable, finite
distance, with exactly those entries as denominator. -/
theorem claim_c6_amended :
    ((extractPreferences []).avgRating = 0
      ∧ (extractPreferences []).avgDistance = 0
      ∧ (extractPreferences []).totalSaved = 0
      ∧ (∀ k, (extractPreferences []).favoriteCuisines k = 0)
      ∧ (∀ q, (extractPreferences []).preferredPriceLevels q = 0)
      ∧ (∀ k, (extractPreferences []).preferredSpiceLevels k = 0))
    ∧ (∀ l : List FoodStore,
        (extractPreferences l).avgRating =
          (if 0 < (positiveRatings l).length then
            (positiveRatings l).sum / ((positiveRatings l).length : ℚ) else 0)
        ∧ (extractPreferences l).avgDistance =
          (if 0 < (parsedDistances l).length then
            (parsedDistances l).sum / ((parsedDistances l).length : ℚ) else 0)) := by
  constructor
  · exact ⟨rfl, rfl, rfl, fun _ => rfl, fun _ => rfl, fun _ => rfl⟩
  · intro l
    rcases l with _ | ⟨s, t⟩
    · simp [extractPreferences, positiveRatings, parsedDistances]
    · have h := foldl_prefStep_numeric (s :: t)
        { cuisineCounts := fun _ => 0, priceCounts := fun _ => 0, spiceCounts := fun _ => 0
          totalRating := 0, ratingCount := 0, totalDistance := 0, distanceCount := 0 }
      simp only [zero_add] at h
      obtain ⟨h1, h2, h3, h4⟩ := h
      constructor
      · simp only [extractPreferences, List.isEmpty_cons, Bool.false_eq_true, if_false, h1, h2]
        by_cases hp : 0 < (positiveRatings (s :: t)).length
        · rw [if_pos (by exact_mod_cast hp), if_pos hp]
        · rw [if_neg (by exact_mod_cast hp), if_neg hp]
      · simp only [extractPreferences, List.isEmpty_cons, Bool.false_eq_true, if_false, h3, h4]
        by_cases hp : 0 < (parsedDistances (s :: t)).length
        · rw [if_pos (by exact_mod_cast hp), if_pos hp]
        · rw [if_neg (by exact_mod_cast hp), if_neg hp]

/-! ### C3 -/

/-- C3 counterexample: on `"2 mi away"` the page.tsx parser — one of the
two distance parsers the claim covers — returns `2` (it has no miles
branch, so the `"m"` of `"mi"` is read as metres), not `2 × 1609.34`;
the part_000 parser does return `2 × 1609.34`. -/
theorem claim_c3_counterexample :
    pageParseDistanceToMeters ("2 mi away".toList) = some 2
      ∧ parseDistanceToMeters ("2 mi away".toList) = some (2 * (160934 / 100))
      ∧ (2 : ℚ) ≠ 2 * (160934 / 100) := by
  decide

/-- C3 amended: the miles behaviour holds for the part_000 parser only —
whenever `parseFloat` of the lower-cased input yields `n` and the input
contains `"mi"` (which every miles indicator, including `"mile"`, does),
the part_000 parser returns `n × 1609.34`, the miles branch being checked
before the kilometre and bare-metre branches; an input with no numeric
prefix parses to `null` in both parsers.  The page.tsx parser has no
miles branch and reads the `"m"` of `"mi"` as metres. -/
theorem claim_c3_amended :
    (∀ (s : List Char) (n : ℚ),
        parseFloatQ (toLowerStr s) = some n →
        containsSub ('m' :: 'i' :: []) (toLowerStr s) = true →
        parseDistanceToMeters s = some (n * (160934 / 100)))
      ∧ (∀ s : List Char,
          parseFloatQ (toLowerStr s) = none →
          parseDistanceToMeters s = none ∧ pageParseDistanceToMeters s = none) := by
  constructor
  · intro s n hf hm
    have hs : ¬s.isEmpty = true := by
      intro h
      rw [List.isEmpty_iff] at h
      subst h
      exact absurd hm (by decide)
    simp only [parseDistanceToMeters, Bool.not_eq_true] at *
    rw [if_neg (by simp [hs]), hf, hm]
    simp
  · intro s h
    by_cases hs : s.isEmpty <;>
      simp [parseDistanceToMeters, pageParseDistanceToMeters, hs, h]

/-- Witness for C3 amended at `"2 mi away"` (miles conjunct) — the
hypotheses are discharged by evaluation. -/
theorem claim_c3_amended_witness :
    parseDistanceToMeters ("2 mi away".toList) = some ((2 : ℚ) * (160934 / 100)) :=
  claim_c3_amended.1 ("2 mi away".toList) 2 (by decide) (by decide)

/-! ### C10 -/

/-- A candidate whose only signal is a miles-denominated distance. -/
def candidateMiles : FoodStore :=
  { cuisine := []
    spiceLevel := []
    distance := "2 mi away".toList
    rating := none
    ratingCount := none
    priceLevel := none
    isNew := false
    openNow := false }

/-- C10 counterexample: on the candidate with distance `"2 mi away"` and
the empty profile, the part_000 scorer (no pre-computed meters supplied)
parses 3218.68 m and lands in the `< 5000` band (`+1`), while the
page.tsx scorer parses 2 m and lands in the `< 500` band (`+10`): the
two scorers disagree. -/
theorem claim_c10_counterexample :
    scoreRecommendation candidateMiles (extractPreferences []) none = 1
      ∧ pageScoreRecommendation candidateMiles (extractPreferences []) = 10
      ∧ (1 : ℚ) ≠ 10 := by
  decide

/-- C10 amended: the two scorers agree on every restaurant whose distance
string the two file-local parsers parse identically (in particular any
input without a miles indicator); the counterexample shows they disagree
otherwise, the scorer bodies being identical term for term. -/
theorem claim_c10_amended :
    ∀ (r : FoodStore) (p : UserPreferences),
      parseDistanceToMeters r.distance = pageParseDistanceToMeters r.distance →
      scoreRecommendation r p none = pageScoreRecommendation r p := by
  intro r p h
  simp only [scoreRecommendation, pageScoreRecommendation, cuisineTerm, ratingTerm,
    distanceTerm, priceTerm, spiceTerm, diversityTerm, flagsTerm, h]

/-- Witness for C10 amended: scenario A's candidate (a kilometre
distance, parsed identically by both parsers) scores the same in both
files. -/
theorem claim_c10_amended_witness :
    scoreRecommendation candidateA (extractPreferences []) none
      = pageScoreRecommendation candidateA (extractPreferences []) :=
  claim_c10_amended candidateA (extractPreferences []) (by decide)

/-! ### C2 -/

/-- A scored candidate with a 1 km distance and the given rating and
score. -/
def mkScored (rating score : ℚ) : Scored :=
  { restaurant :=
    { cuisine := [], spiceLevel := [], distance := "1 km away".toList
      rating := some rating, ratingCount := none, priceLevel := none
      isNew := false, openNow := false }
    score := score }

/-- Three scored candidates whose 0.1-ties form a cycle: scores 10, 9.95,
9.89 with ratings 1, 2, 3. -/
def scoredListC2 : List Scored :=
  [mkScored 1 10, mkScored 2 (199/20), mkScored 3 (989/100)]

/-- The Boolean pairwise check agrees with `List.Pairwise`. -/
theorem pairwiseB_iff (r : α → α → Bool) (l : List α) :
    pairwiseB r l = true ↔ l.Pairwise (fun a b => r a b = true) := by
  induction l with
  | nil => simp [pairwiseB]
  | cons a rest ih =>
    simp [pairwiseB, List.pairwise_cons, List.all_eq_true, ih]

/-- In a pairwise-ordered list, an element that may not precede another
distinct element must come strictly after it. -/
theorem pairwise_false_before {r : α → α → Bool} [DecidableEq α] {l : List α}
    (hw : List.Pairwise (fun a b => r a b = true) l) {x y : α}
    (hx : x ∈ l) (hy : y ∈ l) (hxy : x ≠ y) (hr : r x y = false) :
    List.indexOf y l < List.indexOf x l := by
  have hxl : List.indexOf x l < l.length := List.indexOf_lt_length.2 hx
  have hyl : List.indexOf y l < l.length := List.indexOf_lt_length.2 hy
  have hne : List.indexOf x l ≠ List.indexOf y l :=
    fun h => hxy ((List.indexOf_inj hx hy).1 h)
  rcases lt_trichotomy (List.indexOf x l) (List.indexOf y l) with h | h | h
  · exfalso
    have hRxy := (List.pairwise_iff_get.1 hw) ⟨_, hxl⟩ ⟨_, hyl⟩ (Fin.mk_lt_mk.2 h)
    rw [List.indexOf_get hxl, List.indexOf_get hyl] at hRxy
    rw [hRxy] at hr
    cases hr
  · exact absurd h hne
  · exact h

/-- C2 counterexample: with scores 10, 9.95, 9.89 and ratings 1, 2, 3,
the claimed pairwise order is unsatisfiable — the first two pairs are
0.1-ties that the rating rule orders backwards, while the outer pair
(difference 0.11) must stay score-descending, a cycle — so no permutation
of these three scored candidates satisfies it; the code's output is such
a permutation (all three survive the top-20 cut) and indeed violates the
claimed order. -/
theorem claim_c2_counterexample :
    (∀ l : List Scored, l.Perm scoredListC2 → ¬claimedOrderHolds l)
      ∧ (topRecommendations scoredListC2).Perm scoredListC2
      ∧ ¬claimedOrderHolds (topRecommendations scoredListC2) := by
  refine ⟨?_, by decide, by decide⟩
  intro l hp hord
  have hw := (pairwiseB_iff claimedBeforeB l).1 hord
  have ha : mkScored 1 10 ∈ l := hp.mem_iff.2 (by decide)
  have hb : mkScored 2 (199/20) ∈ l := hp.mem_iff.2 (by decide)
  have hc : mkScored 3 (989/100) ∈ l := hp.mem_iff.2 (by decide)
  have h1 := pairwise_false_before hw ha hb (by decide) (by decide)
  have h2 := pairwise_false_before hw hb hc (by decide) (by decide)
  have h3 := pairwise_false_before hw hc ha (by decide) (by decide)
  omega

/-- C2 amended: the sorted list is a permutation of the scored candidates
and the returned list is its first at-most-20 entries; the *comparator*
treats a pair with score difference at most 0.1 as tied and orders it by
descending rating then ascending parsed distance with unparseable last,
and orders any other pair by descending score.  The claimed list-wide
pairwise order itself is unsatisfiable on some inputs because the 0.1-tie
relation is not transitive (see the counterexample). -/
theorem claim_c2_amended :
    (∀ l : List Scored, (sortScored l).Perm l)
      ∧ (∀ l : List Scored, topRecommendations l = (sortScored l).take 20)
      ∧ (∀ l : List Scored, (topRecommendations l).length ≤ 20)
      ∧ (∀ a b : Scored, |b.score - a.score| ≤ 1/10 → cmpScored a b = tieCompare a b)
      ∧ (∀ a b : Scored, |b.score - a.score| > 1/10 →
          cmpScored a b = (if b.score - a.score < 0 then Ordering.lt else Ordering.gt)) := by
  refine ⟨?_, fun l => rfl, ?_, ?_, ?_⟩
  · intro l
    exact List.perm_insertionSort cmpLe l
  · intro l
    unfold topRecommendations
    rw [List.length_take]
    exact min_le_left _ _
  · intro a b h
    unfold cmpScored tieCompare
    rw [if_neg (not_lt.2 h)]
    rcases lt_trichotomy (ratingD a) (ratingD b) with h1 | h1 | h1
    · rw [if_pos (by exact ne_of_gt h1), if_neg (by rw [sub_neg]; exact not_lt.2 h1.le),
        if_neg (not_lt.2 h1.le), if_pos h1]
    · rw [if_neg (by rw [h1]; exact fun hne => hne rfl), if_neg (by rw [h1]; exact lt_irrefl _),
        if_neg (by rw [h1]; exact lt_irrefl _)]
    · rw [if_pos (by exact ne_of_lt h1), if_pos (by rw [sub_neg]; exact h1), if_pos h1]
  · intro a b h
    unfold cmpScored
    rw [if_pos h]

/-- Witness for C2 amended: a concrete 0.1-tie resolved by the rating
rule, and a concrete non-tie resolved by score. -/
theorem claim_c2_amended_witness :
    cmpScored (mkScored 2 (199/20)) (mkScored 1 10) = tieCompare (mkScored 2 (199/20)) (mkScored 1 10)
      ∧ cmpScored (mkScored 1 10) (mkScored 3 (989/100)) = Ordering.lt := by
  constructor
  · exact claim_c2_amended.2.2.2.1 (mkScored 2 (199/20)) (mkScored 1 10) (by decide)
  · rw [claim_c2_amended.2.2.2.2 (mkScored 1 10) (mkScored 3 (989/100)) (by decide)]
    decide

/-! ### C7 -/

/-- A cached row whose `expires_at` is already in the past while its
`last_updated_at` is recent: the geo-cache query's only freshness filter
(`last_updated_at` within 30 days) accepts it. -/
def expiredRow : PlaceRow :=
  { lat := 0, lon := 0, coverImageBase64 := some ("x".toList)
    lastUpdatedAt := -1, expiresAt := some (-1) }

/-- Five copies of the expired row, enough to clear the `>= 5`
cache-sufficiency gate. -/
def expiredRowsC7 : List PlaceRow :=
  [expiredRow, expiredRow, expiredRow, expiredRow, expiredRow]

/-- C7 counterexample: at query time `now = 0`, `expiredRow` has
`expires_at = -1` in the past, lies inside the bounding box, has a cover
image and a fresh `last_updated_at`, and the Geo-Cache Lookup returns it
(the query filters on `last_updated_at`, never on `expires_at`); with
five such rows the cache is even deemed sufficient and served. -/
theorem claim_c7_counterexample :
    expiredRow ∈ geoCacheQuery expiredRowsC7 0 0 1 1 0
      ∧ geoCacheSufficient expiredRowsC7 0 0 1 1 0 = some expiredRowsC7
      ∧ expiredRow.expiresAt = some (-1)
      ∧ ((-1 : ℚ) < 0) := by
  decide

/-- C7 amended: every row the Geo-Cache Lookup returns has
`last_updated_at` strictly within the last 30 days; therefore a returned
row satisfying the writer invariant `expires_at = last_updated_at + 30
days` — which every `places` upsert of this route establishes
(`placeUpsertStamp`) — cannot be expired.  A row violating that invariant
can be expired and still returned (see the counterexample). -/
theorem claim_c7_amended :
    (∀ (rows : List PlaceRow) (lat lon latDelta lonDelta nowMs : ℚ) (p : PlaceRow),
        p ∈ geoCacheQuery rows lat lon latDelta lonDelta nowMs →
          nowMs - thirtyDaysMs < p.lastUpdatedAt
            ∧ ∀ e : ℚ, p.expiresAt = some e → e = p.lastUpdatedAt + thirtyDaysMs → nowMs < e)
      ∧ (∀ nowMs : ℚ, placeUpsertStamp nowMs = (nowMs, some (nowMs + thirtyDaysMs))) := by
  constructor
  · intro rows lat lon latDelta lonDelta nowMs p hp
    have hmem := List.take_subset 60 _ hp
    have hfilter := (List.mem_filter.1 hmem).2
    simp only [Bool.and_eq_true, decide_eq_true_eq] at hfilter
    have hlu : nowMs - thirtyDaysMs < p.lastUpdatedAt := hfilter.2
    refine ⟨hlu, ?_⟩
    intro e _ heq
    rw [heq]
    linarith
  · intro nowMs
    rfl

/-- Witness for C7 amended at the counterexample row: its
`last_updated_at` is within the window. -/
theorem claim_c7_amended_witness :
    (0 : ℚ) - thirtyDaysMs < expiredRow.lastUpdatedAt :=
  (claim_c7_amended.1 expiredRowsC7 0 0 1 1 0 expiredRow (by decide)).1

/-! ### C8 -/

/-- C8: with no `GOOGLE_PLACES_API_KEY`, `getOrCachePlacePhotos` returns
immediately for any place: the category-keyword fallback image, an empty
gallery, no detail fields, and — the empty effect list — no upstream call
of any kind. -/
theorem claim_c8_missing_key :
    ∀ (env : Env) (p : PlaceParams), env.apiKey = none →
      getOrCachePlacePhotos env p =
        ({ cover := getCuisineFallbackImageFromTypes p.types, gallery := []
           description := none, phone := none, website := none, internationalPhone := none
           openingHours := none, reviews := none, businessStatus := none }, []) := by
  intro env p h
  unfold getOrCachePlacePhotos
  rw [h]

/-- An environment with no API key. -/
def envNoKey : Env :=
  { apiKey := none, existing := none, nowMs := 0, detailsResponse := none
    photoResponse := fun _ _ => none }

/-- Place parameters with Mexican category tags and one photo
reference. -/
def paramsMex : PlaceParams :=
  { placeId := "p1".toList, name := "n".toList, lat := 0, lon := 0
    formattedAddress := none, primaryType := none
    types := some ["mexican".toList]
    rating := none, ratingCount := none, priceLevel := none
    photos := some [{ photoReference := "r1".toList, width := none, height := none
                      attributions := none }] }

/-- Witness for C8: on a place tagged `mexican` the missing-key
short-circuit returns the Mexican stock image and no upstream calls,
even though a photo reference was available. -/
theorem claim_c8_missing_key_witness :
    getOrCachePlacePhotos envNoKey paramsMex
      = ({ cover := "https://images.unsplash.com/photo-1617196034796-73dfa7b1fd56?auto=format&fit=crop&w=900&q=80".toList
           gallery := [], description := none, phone := none, website := none
           internationalPhone := none, openingHours := none, reviews := none
           businessStatus := none }, []) := by
  rw [claim_c8_missing_key envNoKey paramsMex rfl]
  decide

/-! ### C9 -/

/-- The calls one photo generates: one fetch on first-attempt success,
otherwise two fetches separated by the 100 ms delay. -/
def expectedPhotoCalls (oracle : ℕ → ℕ → Option (List Char)) (i : ℕ) (ph : PhotoRef) :
    List UpstreamCall :=
  if ph.photoReference.isEmpty then []
  else
    match oracle i 0 with
    | some _ => [UpstreamCall.photoFetch i 0]
    | none =>
      [UpstreamCall.photoFetch i 0, UpstreamCall.delayMs 100, UpstreamCall.photoFetch i 1]

/-- The gallery entry one photo contributes: built from whichever attempt
succeeded first, `none` when both fail. -/
def expectedEntry (oracle : ℕ → ℕ → Option (List Char)) (i : ℕ) (ph : PhotoRef) :
    Option GalleryEntry :=
  if ph.photoReference.isEmpty then none
  else
    match oracle i 0 with
    | some d => some (mkGalleryEntry ph d)
    | none => (oracle i 1).map (mkGalleryEntry ph)

/-- Concatenated expected calls over an indexed photo list. -/
def expectedCallsList (oracle : ℕ → ℕ → Option (List Char)) :
    List (ℕ × PhotoRef) → List UpstreamCall
  | [] => []
  | ip :: rest => expectedPhotoCalls oracle ip.1 ip.2 ++ expectedCallsList oracle rest

/-- Is a call a fetch attempt for photo index `i`? -/
def isAttemptFor (i : ℕ) : UpstreamCall → Bool
  | UpstreamCall.photoFetch j _ => j = i
  | _ => false

/-- Number of fetch attempts made for photo index `i` in a call list. -/
def attemptsFor (i : ℕ) (calls : List UpstreamCall) : ℕ :=
  calls.countP (isAttemptFor i)

/-- Attempts counted over a concatenation add up. -/
theorem attemptsFor_append (i : ℕ) (l₁ l₂ : List UpstreamCall) :
    attemptsFor i (l₁ ++ l₂) = attemptsFor i l₁ + attemptsFor i l₂ :=
  List.countP_append _ l₁ l₂

/-- One photo's collected entry is as expected. -/
theorem fetchOnePhoto_fst (oracle : ℕ → ℕ → Option (List Char)) (i : ℕ) (ph : PhotoRef) :
    (fetchOnePhoto oracle i ph).1 = expectedEntry oracle i ph := by
  unfold fetchOnePhoto expectedEntry
  by_cases h : ph.photoReference.isEmpty <;>
    rcases h0 : oracle i 0 with _ | d <;> rcases h1 : oracle i 1 with _ | d' <;> simp [h, h0, h1]

/-- One photo's call trace is as expected. -/
theorem fetchOnePhoto_snd (oracle : ℕ → ℕ → Option (List Char)) (i : ℕ) (ph : PhotoRef) :
    (fetchOnePhoto oracle i ph).2 = expectedPhotoCalls oracle i ph := by
  unfold fetchOnePhoto expectedPhotoCalls
  by_cases h : ph.photoReference.isEmpty <;>
    rcases h0 : oracle i 0 with _ | d <;> rcases h1 : oracle i 1 with _ | d' <;> simp [h, h0, h1]

/-- The loop over indexed refs produces exactly the per-photo entries and
calls. -/
theorem fetchPhotosAux_eq (oracle : ℕ → ℕ → Option (List Char)) (refs : List PhotoRef) (j : ℕ) :
    fetchPhotosAux oracle j refs
      = ((List.enumFrom j refs).filterMap (fun ip => expectedEntry oracle ip.1 ip.2),
         expectedCallsList oracle (List.enumFrom j refs)) := by
  induction refs generalizing j with
  | nil => simp [fetchPhotosAux, expectedCallsList]
  | cons ph rest ih =>
    simp only [fetchPhotosAux, List.enumFrom_cons, List.filterMap_cons, expectedCallsList,
      ih (j + 1), fetchOnePhoto_fst, fetchOnePhoto_snd]
    rcases expectedEntry oracle j ph with _ | e <;> simp

/-- A photo with an index other than `i` contributes no attempts for
`i`. -/
theorem attemptsFor_expectedPhotoCalls_ne (oracle : ℕ → ℕ → Option (List Char))
    {i j : ℕ} (h : j ≠ i) (ph : PhotoRef) :
    attemptsFor i (expectedPhotoCalls oracle j ph) = 0 := by
  unfold attemptsFor expectedPhotoCalls isAttemptFor
  by_cases hph : ph.photoReference.isEmpty <;> rcases h0 : oracle j 0 with _ | d <;>
    simp [hph, h0, List.countP_cons, h]

/-- A photo contributes at most 2 attempts for any index. -/
theorem attemptsFor_expectedPhotoCalls_le (oracle : ℕ → ℕ → Option (List Char))
    (i j : ℕ) (ph : PhotoRef) :
    attemptsFor i (expectedPhotoCalls oracle j ph) ≤ 2 := by
  unfold attemptsFor expectedPhotoCalls isAttemptFor
  by_cases hph : ph.photoReference.isEmpty <;> rcases h0 : oracle j 0 with _ | d <;>
    simp [hph, h0, List.countP_cons] <;> split_ifs <;> simp

/-- Indexed photo lists starting above `i` contribute no attempts for
`i`. -/
theorem attemptsFor_callsList_lt (oracle : ℕ → ℕ → Option (List Char))
    (refs : List PhotoRef) {i j : ℕ} (h : i < j) :
    attemptsFor i (expectedCallsList oracle (List.enumFrom j refs)) = 0 := by
  induction refs generalizing j with
  | nil => simp [expectedCallsList, attemptsFor]
  | cons ph rest ih =>
    simp only [List.enumFrom_cons, expectedCallsList]
    rw [attemptsFor_append]
    have h1 := attemptsFor_expectedPhotoCalls_ne oracle (Nat.ne_of_gt h) ph
    have h2 := ih (Nat.lt_succ_of_lt h)
    rw [h1, h2]

/-- Over any indexed photo list with strictly increasing indices starting
at `j`, at most two attempts target any fixed photo index. -/
theorem attemptsFor_callsList_le (oracle : ℕ → ℕ → Option (List Char))
    (refs : List PhotoRef) (i j : ℕ) :
    attemptsFor i (expectedCallsList oracle (List.enumFrom j refs)) ≤ 2 := by
  induction refs generalizing j with
  | nil => simp [expectedCallsList, attemptsFor]
  | cons ph rest ih =>
    simp only [List.enumFrom_cons, expectedCallsList]
    rw [attemptsFor_append]
    by_cases hji : j = i
    · subst hji
      have h1 := attemptsFor_expectedPhotoCalls_le oracle j j ph
      have h2 := attemptsFor_callsList_lt oracle rest (Nat.lt_succ_self j)
      rw [h2]
      simpa using h1
    · have h1 := attemptsFor_expectedPhotoCalls_ne oracle hji ph
      have h2 := ih (j + 1)
      rw [h1]
      simpa using h2

/-- The details step's `placeDetails` when no complete cache exists. -/
def detailsOf (env : Env) (p : PlaceParams) : PlaceDetails :=
  match env.detailsResponse with
  | none => emptyDetails
  | some r => (applyDetails r p.photos).1

/-- The photo-reference worklist after the details step, when no complete
cache exists: the (possibly details-augmented) photo list with falsy
references dropped. -/
def workingPhotoRefs (env : Env) (p : PlaceParams) : List PhotoRef :=
  let photos2 :=
    match env.detailsResponse with
    | none => p.photos
    | some r => (applyDetails r p.photos).2
  (photos2.getD []).filter (fun ph => !ph.photoReference.isEmpty)

/-- C9: each photo is attempted at most twice ("retried up to 2 times");
the call trace per photo is exactly one fetch, or fetch — 100 ms delay —
fetch; the collected gallery is exactly the per-photo successes in order,
so a photo that fails both attempts is dropped while every other photo's
entry survives; and when enrichment reaches the photo loop (uncached
place, key present) and at least one photo succeeds, the place record is
still produced with that partial gallery (cover = first success, gallery
= the following successes). -/
theorem claim_c9_photo_retry :
    (∀ (oracle : ℕ → ℕ → Option (List Char)) (refs : List PhotoRef) (i : ℕ),
        attemptsFor i (fetchPhotos oracle refs).2 ≤ 2)
      ∧ (∀ (oracle : ℕ → ℕ → Option (List Char)) (refs : List PhotoRef),
          (fetchPhotos oracle refs).2
            = expectedCallsList oracle (List.enumFrom 0 (refs.take 4)))
      ∧ (∀ (oracle : ℕ → ℕ → Option (List Char)) (refs : List PhotoRef),
          (fetchPhotos oracle refs).1
            = (List.enumFrom 0 (refs.take 4)).filterMap
                (fun ip => expectedEntry oracle ip.1 ip.2))
      ∧ (∀ (env : Env) (p : PlaceParams) (k : List Char) (e : GalleryEntry)
            (rest : List GalleryEntry),
          env.apiKey = some k → env.existing = none →
          (fetchPhotos env.photoResponse (workingPhotoRefs env p)).1 = e :: rest →
          (getOrCachePlacePhotos env p).1.cover = e.imageBase64
            ∧ (getOrCachePlacePhotos env p).1.gallery
                = ((rest.take 3).map (fun g => g.imageBase64)).filter (fun u => !u.isEmpty)
            ∧ (getOrCachePlacePhotos env p).2
                = UpstreamCall.detailsFetch
                    :: (fetchPhotos env.photoResponse (workingPhotoRefs env p)).2) := by
  refine ⟨?_, ?_, ?_, ?_⟩
  · intro oracle refs i
    rw [show (fetchPhotos oracle refs).2
        = expectedCallsList oracle (List.enumFrom 0 (refs.take 4)) from
      congrArg Prod.snd (fetchPhotosAux_eq oracle (refs.take 4) 0)]
    exact attemptsFor_callsList_le oracle (refs.take 4) i 0
  · intro oracle refs
    exact congrArg Prod.snd (fetchPhotosAux_eq oracle (refs.take 4) 0)
  · intro oracle refs
    exact congrArg Prod.fst (fetchPhotosAux_eq oracle (refs.take 4) 0)
  · intro env p k e rest hk hex hfetch
    have hne : ¬(workingPhotoRefs env p).isEmpty = true := by
      intro h0
      rw [List.isEmpty_iff] at h0
      rw [h0] at hfetch
      simp [fetchPhotos, fetchPhotosAux] at hfetch
    rcases hd : env.detailsResponse with _ | r <;>
      simp_all [getOrCachePlacePhotos, workingPhotoRefs, detailsOf, isCacheValidOf, strTruthy,
        hk, hex, hd, fetchPhotos] <;>
      (try (obtain ⟨x, hx, hxne⟩ := hne
            rw [if_neg (fun hall => hxne (hall x hx))]
            exact ⟨rfl, rfl, rfl⟩))

/-- One concrete photo reference. -/
def photoRefC9 : PhotoRef :=
  { photoReference := "r1".toList, width := none, height := none, attributions := none }

/-- A concrete enrichment environment: key present, nothing cached, the
details request fails, and photo 0 fails its first attempt and succeeds
on the retry. -/
def envC9 : Env :=
  { apiKey := some ("k".toList), existing := none, nowMs := 0, detailsResponse := none
    photoResponse := fun i a => if i = 0 ∧ a = 1 then some ("img".toList) else none }

/-- Concrete place parameters with a single photo reference. -/
def paramsC9 : PlaceParams :=
  { placeId := "p".toList, name := "n".toList, lat := 0, lon := 0
    formattedAddress := none, primaryType := none, types := none
    rating := none, ratingCount := none, priceLevel := none
    photos := some [photoRefC9] }

/-- Witness for C9 at a concrete run: photo 0 fails once, is retried, and
its retry result becomes the cover of the produced place record. -/
theorem claim_c9_photo_retry_witness :
    (getOrCachePlacePhotos envC9 paramsC9).1.cover
      = (mkGalleryEntry photoRefC9 ("img".toList)).imageBase64 :=
  (claim_c9_photo_retry.2.2.2 envC9 paramsC9 ("k".toList)
    (mkGalleryEntry photoRefC9 ("img".toList)) [] rfl rfl (by decide)).1

end HiHungry
